import Mathlib

/-!
Shallow embedding of the NEEV storefront prototype
(src/neev_website_fixed2.py): product catalog, session cart, checkout
(order creation with stock decrement), admin order transitions
(mark-paid / reject), admin product edit, the webhook handler, and the
Razorpay webhook signature check (HMAC-SHA256).

Modelling conventions:
* SQLite rows become Lean structures; the three tables (products, orders,
  order_items) and the session (cart mapping, premium flag) are collected
  in one explicit state record that every handler threads.
* REAL money columns are modelled as rationals; the stock column is a
  plain SQLite INTEGER with no non-negativity constraint, so it is
  modelled as Int.
* Nullable TEXT columns that the code actually branches on are Option
  String; nullable text columns that are only stored are plain String
  with the empty string standing for NULL.
* Handlers are pure functions from state (plus the request inputs and the
  environment inputs such as timestamps and the mocked gateway response)
  to a new state and the observable response (redirect target or flash).
-/

namespace Neev

/-- A row of the products table (CREATE TABLE products in
src/neev_website_fixed2.py).  stock is an SQLite INTEGER with no CHECK
constraint, hence Int. -/
structure Product where
  id : Nat
  sku : String
  name : String
  category : String
  description : String
  price : Rat
  stock : Int
  image : String
deriving DecidableEq, Repr

/-- A row of the orders table.  external_id and gateway_payload are the two
nullable columns the code branches on / fills in later, hence Option. -/
structure Order where
  id : Nat
  external_id : Option String
  created_at : String
  customer_name : String
  customer_email : String
  customer_phone : String
  address : String
  premium : Nat
  total : Rat
  payment_method : String
  payment_status : String
  status : String
  gateway_payload : Option String
deriving DecidableEq, Repr

/-- A row of the order_items table (the autoincrement id column is not
read anywhere and is omitted).  product_id is nullable in the schema. -/
structure OrderItem where
  order_id : Nat
  product_id : Option Nat
  name : String
  price : Rat
  qty : Nat
deriving DecidableEq, Repr

/-- An entry of cart_items(): the dict built per cart line from the joined
product row (id, name, price, qty, subtotal). -/
structure CartItem where
  id : Nat
  name : String
  price : Rat
  qty : Nat
  subtotal : Rat
deriving DecidableEq, Repr

/-- The whole mutable state a request handler sees: the three database
tables, the autoincrement counter for orders, and the session-held cart
(product id to quantity) and premium flag. -/
structure AppState where
  products : List Product
  orders : List Order
  order_items : List OrderItem
  nextOrderId : Nat
  cart : List (Nat × Nat)
  premium : Bool
deriving DecidableEq, Repr

/-- SELECT * FROM products WHERE id = ? (first match or none). -/
def lookupProduct (ps : List Product) (pid : Nat) : Option Product :=
  ps.find? (fun p => p.id == pid)

/-- cart.get(str(pid), 0): quantity stored in the session cart, 0 when
the product id has no entry. -/
def cartGet (c : List (Nat × Nat)) (pid : Nat) : Nat :=
  match c.find? (fun e => e.1 == pid) with
  | some e => e.2
  | none => 0

/-- cart[str(pid)] = qty: Python dict assignment, updating the entry in
place when the key exists and appending it otherwise. -/
def cartSet (c : List (Nat × Nat)) (pid qty : Nat) : List (Nat × Nat) :=
  if c.any (fun e => e.1 == pid) then
    c.map (fun e => if e.1 == pid then (pid, qty) else e)
  else
    c ++ [(pid, qty)]

/-- cart_items() from the source: walk the session cart, look each product
id up in the products table, and silently skip lines whose product no
longer exists; each surviving line is returned with the product's current
name and price and subtotal = price * qty. -/
def cart_items (ps : List Product) (c : List (Nat × Nat)) : List CartItem :=
  c.filterMap (fun pq =>
    (lookupProduct ps pq.1).map (fun row =>
      { id := row.id, name := row.name, price := row.price, qty := pq.2,
        subtotal := row.price * (pq.2 : Rat) }))

/-- cart_total() from the source: sum of the line subtotals, plus the flat
999.0 premium surcharge when the premium flag is set. -/
def cart_total (items : List CartItem) (premium : Bool) : Rat :=
  let subtotal := (items.map (fun i => i.subtotal)).sum
  if premium then subtotal + 999 else subtotal

/-- Observable outcome of the cart_add route: redirect home with an error
flash, redirect back to the product page with an error flash, or redirect
to the cart with a success flash. -/
inductive CartAddResult where
  | productNotFound
  | exceedsStock
  | added
deriving DecidableEq, Repr

/-- The POST /cart/add/(pid) handler: fetch the product (error if absent),
coerce the requested quantity up to 1, refuse when the requested quantity
alone exceeds current stock, otherwise add it onto whatever quantity the
session cart already holds for that product. -/
def cartAdd (s : AppState) (pid : Nat) (qtyForm : Int) : AppState × CartAddResult :=
  match lookupProduct s.products pid with
  | none => (s, CartAddResult.productNotFound)
  | some p =>
    let qty : Int := if qtyForm < 1 then 1 else qtyForm
    if qty > p.stock then
      (s, CartAddResult.exceedsStock)
    else
      ({ s with cart := cartSet s.cart pid (cartGet s.cart pid + qty.toNat) },
       CartAddResult.added)

/-- Observable outcome of the POST /checkout handler: redirect home when
the cart is empty, redirect back when a required field is missing, or the
id of the created order (the user is then routed to the UPI view or the
status view). -/
inductive CheckoutResult where
  | emptyCart
  | missingFields
  | placed (orderId : Nat)
deriving DecidableEq, Repr

/-- The POST /checkout handler.  Environment inputs that the code obtains
from the clock and the (mocked) gateway are passed in explicitly:
keysConfigured models whether RAZORPAY_KEY_ID and RAZORPAY_KEY_SECRET are
both set, now the creation timestamp, gwId / gwPayload the id and
serialized body of the gateway order returned by gateway_create_order.

Faithful to the source: the cart lines are re-read against the products
table (cart_items), required fields are checked, the order row is
inserted with payment_status "pending" / status "created", one order_items
row per line is inserted with the product's name and price snapshotted,
and each referenced product's stock is decremented by the ordered
quantity with NO comparison against the available stock.  The gateway
order id and payload are then stored on the order, the session cart and
premium flag are cleared, and for a non-UPI payment with no gateway keys
configured the order is immediately marked paid/confirmed. -/
def checkout (s : AppState) (keysConfigured : Bool) (now gwId gwPayload : String)
    (name email phone address payment_method : String) : AppState × CheckoutResult :=
  let items := cart_items s.products s.cart
  let premium := s.premium
  if items.isEmpty then (s, CheckoutResult.emptyCart)
  else if name = "" ∨ phone = "" ∨ address = "" then (s, CheckoutResult.missingFields)
  else
    let total := cart_total items premium
    let oid := s.nextOrderId
    let order : Order :=
      { id := oid, external_id := none, created_at := now,
        customer_name := name, customer_email := email, customer_phone := phone,
        address := address, premium := if premium then 1 else 0, total := total,
        payment_method := payment_method, payment_status := "pending",
        status := "created", gateway_payload := none }
    let newItems : List OrderItem := items.map (fun i =>
      { order_id := oid, product_id := some i.id, name := i.name,
        price := i.price, qty := i.qty })
    let products1 := items.foldl (fun ps i =>
      ps.map (fun p => if p.id == i.id then { p with stock := p.stock - (i.qty : Int) } else p))
      s.products
    let orders1 := (s.orders ++ [order]).map (fun o =>
      if o.id == oid then { o with external_id := some gwId, gateway_payload := some gwPayload }
      else o)
    let orders2 :=
      if payment_method = "upi" then orders1
      else if keysConfigured then orders1
      else orders1.map (fun o =>
        if o.id == oid then { o with payment_status := "paid", status := "confirmed" } else o)
    ({ s with
        products := products1, orders := orders2,
        order_items := s.order_items ++ newItems, nextOrderId := oid + 1,
        cart := [], premium := false },
     CheckoutResult.placed oid)

/-- A flash message as the code emits it: flash(text, category). -/
structure Flash where
  text : String
  category : String
deriving DecidableEq, Repr

/-- Row effect of UPDATE orders SET payment_status='paid',
status='confirmed' WHERE id = ?. -/
def markPaidRow (order_id : Nat) (o : Order) : Order :=
  if o.id == order_id then { o with payment_status := "paid", status := "confirmed" }
  else o

/-- Row effect of UPDATE orders SET payment_status='rejected',
status='rejected' WHERE id = ?. -/
def rejectRow (order_id : Nat) (o : Order) : Order :=
  if o.id == order_id then { o with payment_status := "rejected", status := "rejected" }
  else o

/-- The POST /admin/order/(id)/mark_paid handler (past the admin gate,
which is out of scope): an unconditional UPDATE setting
payment_status to "paid" and status to "confirmed" on every order row
with the given id, followed by a success flash and a redirect to the
dashboard, whatever the UPDATE matched. -/
def adminMarkPaid (s : AppState) (order_id : Nat) : AppState × Flash :=
  ({ s with orders := s.orders.map (markPaidRow order_id) },
   { text := "Order " ++ toString order_id ++ " marked as paid", category := "success" })

/-- The POST /admin/order/(id)/reject handler: an unconditional UPDATE
setting payment_status and status to "rejected", followed by the
"Order N rejected" flash (the code passes category "error" for red
styling) and a redirect to the dashboard, whatever the UPDATE matched. -/
def adminReject (s : AppState) (order_id : Nat) : AppState × Flash :=
  ({ s with orders := s.orders.map (rejectRow order_id) },
   { text := "Order " ++ toString order_id ++ " rejected", category := "error" })

/-- Observable outcome of the POST branch of /admin/product/(pid)/edit. -/
inductive EditResult where
  | invalid
  | updated
deriving DecidableEq, Repr

/-- The POST branch of the /admin/product/(pid)/edit handler: reject when
the name is empty or the price is not positive, otherwise UPDATE the
product row's name, category, description, price, stock and image
(keeping id and sku).  Note the stock field is stored as submitted, with
no sign check. -/
def adminProductEdit (s : AppState) (pid : Nat) (name : String) (price : Rat)
    (stock : Int) (description category image : String) : AppState × EditResult :=
  if name = "" ∨ price ≤ 0 then (s, EditResult.invalid)
  else
    ({ s with products := s.products.map (fun p =>
        if p.id == pid then
          { p with
              name := name, category := category, description := description,
              price := price, stock := stock, image := image }
        else p) },
     EditResult.updated)

/-- The entity object nested in a webhook event
(payload.payment.entity): the handler reads its order_id and id keys;
raw stands for json.dumps(entity), which is stored as the audit payload
on a matched order. -/
structure WebhookEntity where
  order_id : Option String
  id : Option String
  raw : String
deriving DecidableEq, Repr

/-- A decoded webhook event envelope, restricted to the shape the handler
reads: the event / type discriminator keys, the nested
payload.payment.entity object when present, and raw standing for
json.dumps(event) as persisted for unrecognized events. -/
structure WebhookEvent where
  event : Option String
  type : Option String
  entity : Option WebhookEntity
  raw : String
deriving DecidableEq, Repr

/-- Python truthiness for an optional string: None and the empty string
count as false in an x or y chain. -/
def truthy (o : Option String) : Option String :=
  o.bind (fun t => if t = "" then none else some t)

/-- ev = event.get("event") or event.get("type") or "" from the source. -/
def eventKind (e : WebhookEvent) : String :=
  ((truthy e.event).or (truthy e.type)).getD ""

/-- gateway_order_id = entity.get("order_id") or entity.get("id") when an
entity object is present, following Python's falsy-or chain. -/
def gatewayOrderId (e : WebhookEvent) : Option String :=
  match e.entity with
  | none => none
  | some ent => (truthy ent.order_id).or (truthy ent.id)

/-- The audit row the webhook handler inserts into the orders table for an
unrecognized event: INSERT INTO orders (created_at, customer_name, total,
payment_method, payment_status, status, gateway_payload) VALUES
(now, "webhook_event", 0.0, "webhook", "pending", "webhook",
json.dumps(event)); the remaining columns are NULL / default. -/
def auditOrder (now : String) (oid : Nat) (raw : String) : Order :=
  { id := oid, external_id := none, created_at := now,
    customer_name := "webhook_event", customer_email := "", customer_phone := "",
    address := "", premium := 0, total := 0, payment_method := "webhook",
    payment_status := "pending", status := "webhook", gateway_payload := some raw }

/-- Row effect of UPDATE orders SET payment_status='paid',
status='confirmed', gateway_payload = ? WHERE external_id = ?, the
update a matched payment.captured event applies. -/
def capturedRow (gid entityRaw : String) (o : Order) : Order :=
  if o.external_id == some gid then
    { o with
        payment_status := "paid", status := "confirmed",
        gateway_payload := some entityRaw }
  else o

/-- The POST /webhook handler after signature verification, on a decoded
envelope (the raw-body JSON decode itself happens in the framework,
outside the guarded try block).  A payment.captured event carrying a
truthy order id updates every order whose external_id matches (possibly
none) and acknowledges; one carrying no truthy id acknowledges without
touching anything; any other event kind inserts a standalone audit row
and acknowledges.  The Bool result is the 200 JSON ok:true
acknowledgement, which every branch of this code path returns. -/
def webhookHandle (s : AppState) (now : String) (e : WebhookEvent) : AppState × Bool :=
  let ev := eventKind e
  if ev = "payment.captured" ∨ ev = "payment.captured.v1" then
    match gatewayOrderId e with
    | some gid =>
      let entityRaw := (e.entity.map (fun ent => ent.raw)).getD ""
      ({ s with orders := s.orders.map (capturedRow gid entityRaw) }, true)
    | none => (s, true)
  else
    ({ s with
        orders := s.orders ++ [auditOrder now s.nextOrderId e.raw],
        nextOrderId := s.nextOrderId + 1 },
     true)

/-! HMAC-SHA256, as used by verify_razorpay_signature.  The Python code
calls hmac.new(secret, body, hashlib.sha256).hexdigest(); both standard
primitives are implemented here over byte lists (Nat values below 256),
with 32-bit words as Nat reduced modulo 2^32 (FIPS 180-4 / RFC 2104). -/

/-- Reduce a word modulo 2^32. -/
def w32 (x : Nat) : Nat := x % 4294967296

/-- Rotate a 32-bit word right by n bits. -/
def rotr32 (n x : Nat) : Nat := w32 ((x >>> n) ||| (x <<< (32 - n)))

/-- The 64 SHA-256 round constants (fractional parts of the cube roots of
the first 64 primes, FIPS 180-4, written in decimal). -/
def shaK : List Nat :=
  [1116352408, 1899447441, 3049323471, 3921009573, 961987163, 1508970993,
   2453635748, 2870763221, 3624381080, 310598401, 607225278, 1426881987,
   1925078388, 2162078206, 2614888103, 3248222580, 3835390401, 4022224774,
   264347078, 604807628, 770255983, 1249150122, 1555081692, 1996064986,
   2554220882, 2821834349, 2952996808, 3210313671, 3336571891, 3584528711,
   113926993, 338241895, 666307205, 773529912, 1294757372, 1396182291,
   1695183700, 1986661051, 2177026350, 2456956037, 2730485921, 2820302411,
   3259730800, 3345764771, 3516065817, 3600352804, 4094571909, 275423344,
   430227734, 506948616, 659060556, 883997877, 958139571, 1322822218,
   1537002063, 1747873779, 1955562222, 2024104815, 2227730452, 2361852424,
   2428436474, 2756734187, 3204031479, 3329325298]

/-- The SHA-256 initial hash value (fractional parts of the square roots
of the first 8 primes, written in decimal). -/
def shaH0 : List Nat :=
  [1779033703, 3144134277, 1013904242, 2773480762, 1359893119, 2600822924,
   528734635, 1541459225]

/-- Pad a byte message per SHA-256: append 0x80, zeros to 56 mod 64, then
the bit length as eight big-endian bytes. -/
def shaPad (msg : List Nat) : List Nat :=
  let L := msg.length
  let k := (119 - L % 64) % 64
  let bitLen := 8 * L
  msg ++ [0x80] ++ List.replicate k 0 ++
    [w32 (bitLen >>> 56) % 256, (bitLen >>> 48) % 256, (bitLen >>> 40) % 256,
     (bitLen >>> 32) % 256, (bitLen >>> 24) % 256, (bitLen >>> 16) % 256,
     (bitLen >>> 8) % 256, bitLen % 256]

/-- Read big-endian 32-bit word i of a 64-byte block. -/
def blockWord (block : List Nat) (i : Nat) : Nat :=
  block.getD (4 * i) 0 * 16777216 + block.getD (4 * i + 1) 0 * 65536 +
    block.getD (4 * i + 2) 0 * 256 + block.getD (4 * i + 3) 0

/-- Extend a 64-byte block into the 64-word message schedule. -/
def shaSchedule (block : List Nat) : List Nat :=
  (List.range 64).foldl (fun ws i =>
    if i < 16 then ws ++ [blockWord block i]
    else
      let x15 := ws.getD (i - 15) 0
      let x2 := ws.getD (i - 2) 0
      let s0 := rotr32 7 x15 ^^^ rotr32 18 x15 ^^^ (x15 >>> 3)
      let s1 := rotr32 17 x2 ^^^ rotr32 19 x2 ^^^ (x2 >>> 10)
      ws ++ [w32 (ws.getD (i - 16) 0 + s0 + ws.getD (i - 7) 0 + s1)]) []

/-- One SHA-256 compression round over the eight working words. -/
def shaRound (ws : List Nat) (st : Nat × Nat × Nat × Nat × Nat × Nat × Nat × Nat)
    (i : Nat) : Nat × Nat × Nat × Nat × Nat × Nat × Nat × Nat :=
  match st with
  | (a, b, c, d, e, f, g, hh) =>
    let S1 := rotr32 6 e ^^^ rotr32 11 e ^^^ rotr32 25 e
    let ch := (e &&& f) ^^^ ((e ^^^ 0xffffffff) &&& g)
    let temp1 := w32 (hh + S1 + ch + shaK.getD i 0 + ws.getD i 0)
    let S0 := rotr32 2 a ^^^ rotr32 13 a ^^^ rotr32 22 a
    let maj := (a &&& b) ^^^ (a &&& c) ^^^ (b &&& c)
    let temp2 := w32 (S0 + maj)
    (w32 (temp1 + temp2), a, b, c, w32 (d + temp1), e, f, g)

/-- Compress one 64-byte block into the running hash value. -/
def shaCompress (h : List Nat) (block : List Nat) : List Nat :=
  let ws := shaSchedule block
  let init := (h.getD 0 0, h.getD 1 0, h.getD 2 0, h.getD 3 0,
               h.getD 4 0, h.getD 5 0, h.getD 6 0, h.getD 7 0)
  match (List.range 64).foldl (shaRound ws) init with
  | (a, b, c, d, e, f, g, hh) =>
    [w32 (h.getD 0 0 + a), w32 (h.getD 1 0 + b), w32 (h.getD 2 0 + c),
     w32 (h.getD 3 0 + d), w32 (h.getD 4 0 + e), w32 (h.getD 5 0 + f),
     w32 (h.getD 6 0 + g), w32 (h.getD 7 0 + hh)]

/-- A 32-bit word as four big-endian bytes. -/
def wordBytes (w : Nat) : List Nat :=
  [(w >>> 24) % 256, (w >>> 16) % 256, (w >>> 8) % 256, w % 256]

/-- SHA-256 of a byte list, as a 32-byte list. -/
def sha256 (msg : List Nat) : List Nat :=
  let p := shaPad msg
  let n := p.length / 64
  let hs := (List.range n).foldl (fun h i => shaCompress h ((p.drop (64 * i)).take 64)) shaH0
  (hs.map wordBytes).flatten

/-- HMAC-SHA256 per RFC 2104 with the SHA-256 block size of 64 bytes, as
hmac.new(key, msg, hashlib.sha256) computes it. -/
def hmacSha256 (key msg : List Nat) : List Nat :=
  let k0 := if key.length > 64 then sha256 key else key
  let k := k0 ++ List.replicate (64 - k0.length) 0
  let ipadKey := k.map (fun b => b ^^^ 0x36)
  let opadKey := k.map (fun b => b ^^^ 0x5c)
  sha256 (opadKey ++ sha256 (ipadKey ++ msg))

/-- Lowercase hex digit for a value below 16. -/
def hexChar (n : Nat) : Char :=
  if n < 10 then Char.ofNat (48 + n) else Char.ofNat (87 + n)

/-- Lowercase hex string of a byte list, as hexdigest() renders it. -/
def hexdigest (bytes : List Nat) : String :=
  String.mk ((bytes.map (fun b => [hexChar (b / 16), hexChar (b % 16)])).flatten)

/-- UTF-8 bytes of a string, as str.encode produces them. -/
def utf8Bytes (s : String) : List Nat :=
  s.toUTF8.toList.map (fun b => b.toNat)

/-- verify_razorpay_signature from the source: fail closed when the secret
is empty (Python falsy), otherwise compare the provided signature against
the hex HMAC-SHA256 of the raw body keyed by the UTF-8 secret.  The
constant-time aspect of hmac.compare_digest is a timing property with no
functional content; functionally it is string equality. -/
def verify_razorpay_signature (body : List Nat) (signature : String) (secret : String) : Bool :=
  if secret = "" then false
  else decide (hexdigest (hmacSha256 (utf8Bytes secret) body) = signature)

/-! Helper lemmas shared by the claim theorems. -/

/-- Updating an existing cart key in place stores the new quantity. -/
theorem cartGet_map_update (c : List (Nat × Nat)) (pid qty : Nat) :
    c.any (fun e => e.1 == pid) = true →
    cartGet (c.map (fun e => if e.1 == pid then (pid, qty) else e)) pid = qty := by
  induction c with
  | nil => intro h; simp at h
  | cons hd tl ih =>
    intro h
    by_cases hh : hd.1 = pid
    · simp [cartGet, List.find?, hh]
    · have hb : (hd.1 == pid) = false := by simp [hh]
      have htl : tl.any (fun e => e.1 == pid) = true := by
        simpa [List.any_cons, hb] using h
      simpa [cartGet, List.find?, hb] using ih htl

/-- Appending a fresh cart key stores the new quantity. -/
theorem cartGet_append_new (c : List (Nat × Nat)) (pid qty : Nat) :
    c.any (fun e => e.1 == pid) = false →
    cartGet (c ++ [(pid, qty)]) pid = qty := by
  induction c with
  | nil => intro _; simp [cartGet, List.find?]
  | cons hd tl ih =>
    intro h
    have hb : (hd.1 == pid) = false := by
      rcases List.any_eq_false.mp h hd (by simp) with hx
      simpa using hx
    have htl : tl.any (fun e => e.1 == pid) = false := by
      apply List.any_eq_false.mpr
      intro e he
      exact List.any_eq_false.mp h e (by simp [he])
    simpa [cartGet, List.find?, hb] using ih htl

/-- Python dict assignment followed by lookup of the same key yields the
assigned value. -/
theorem cartGet_cartSet (c : List (Nat × Nat)) (pid qty : Nat) :
    cartGet (cartSet c pid qty) pid = qty := by
  unfold cartSet
  rcases h : c.any (fun e => e.1 == pid) with _ | _
  · simpa [h] using cartGet_append_new c pid qty h
  · simpa [h] using cartGet_map_update c pid qty h

/-- The sum of cart_items subtotals, line by line: an existing product
contributes price times quantity and a missing product contributes
nothing. -/
theorem cart_items_sum (ps : List Product) (c : List (Nat × Nat)) :
    ((cart_items ps c).map (fun i => i.subtotal)).sum =
      (c.map (fun pq =>
        match lookupProduct ps pq.1 with
        | some p => p.price * (pq.2 : Rat)
        | none => 0)).sum := by
  induction c with
  | nil => rfl
  | cons hd tl ih =>
    rcases h : lookupProduct ps hd.1 with _ | p
    · simp [cart_items, List.filterMap_cons, h] at *
      simpa [h] using ih
    · simp only [cart_items, List.filterMap_cons, h, Option.map_some, List.map_cons,
        List.sum_cons, List.map_map] at *
      simp [ih]

/-- markPaidRow is idempotent on each row. -/
theorem markPaidRow_idem (oid : Nat) (o : Order) :
    markPaidRow oid (markPaidRow oid o) = markPaidRow oid o := by
  unfold markPaidRow
  by_cases h : o.id = oid <;> simp [h]

/-- rejectRow is idempotent on each row. -/
theorem rejectRow_idem (oid : Nat) (o : Order) :
    rejectRow oid (rejectRow oid o) = rejectRow oid o := by
  unfold rejectRow
  by_cases h : o.id = oid <;> simp [h]

/-- A row whose id differs is untouched by markPaidRow. -/
theorem markPaidRow_of_ne (oid : Nat) (o : Order) (h : o.id ≠ oid) :
    markPaidRow oid o = o := by
  simp [markPaidRow, h]

/-- A row whose id differs is untouched by rejectRow. -/
theorem rejectRow_of_ne (oid : Nat) (o : Order) (h : o.id ≠ oid) :
    rejectRow oid o = o := by
  simp [rejectRow, h]

/-- A row whose external id differs is untouched by capturedRow. -/
theorem capturedRow_of_ne (gid entityRaw : String) (o : Order)
    (h : o.external_id ≠ some gid) :
    capturedRow gid entityRaw o = o := by
  simp [capturedRow, h]

/-! Claim theorems. -/

/-- C7: verify_razorpay_signature accepts exactly when a secret is
configured and the provided signature equals the hex HMAC-SHA256 of the
raw body keyed by that secret; in particular it always returns false when
no secret is configured, a matching signature over the same body and
secret always passes, and any signature differing from the body's keyed
digest (tampered body or wrong secret) always fails. -/
theorem verify_signature_iff (body : List Nat) (signature secret : String) :
    verify_razorpay_signature body signature secret = true ↔
      secret ≠ "" ∧ signature = hexdigest (hmacSha256 (utf8Bytes secret) body) := by
  unfold verify_razorpay_signature
  by_cases h : secret = "" <;> simp [h, eq_comm]

/-- C9: the cart total is the sum, over exactly the cart lines whose
product still exists in the catalog, of quantity times the product's
current price, plus the flat 999 premium surcharge when the flag is set;
lines whose product was deleted contribute nothing and raise no error. -/
theorem cart_total_formula (s : AppState) (premium : Bool) :
    cart_total (cart_items s.products s.cart) premium =
      (s.cart.map (fun pq =>
        match lookupProduct s.products pq.1 with
        | some p => p.price * (pq.2 : Rat)
        | none => 0)).sum + (if premium then (999 : Rat) else 0) := by
  unfold cart_total
  rw [cart_items_sum]
  by_cases hp : premium <;> simp [hp]

/-- C5: on a state holding the order, applying mark_paid twice produces
exactly the same state and response as applying it once (the repeat still
answers with the usual success flash and redirect), and likewise applying
reject twice equals applying it once. -/
theorem mark_paid_reject_idempotent (s : AppState) (oid : Nat)
    (h : ∃ o ∈ s.orders, o.id = oid) :
    adminMarkPaid (adminMarkPaid s oid).1 oid = adminMarkPaid s oid ∧
    adminReject (adminReject s oid).1 oid = adminReject s oid ∧
    (adminMarkPaid (adminMarkPaid s oid).1 oid).2.category = "success" := by
  refine ⟨?_, ?_, rfl⟩
  · simp only [adminMarkPaid, List.map_map, Prod.mk.injEq, AppState.mk.injEq,
      and_true, true_and]
    exact List.map_congr_left (fun o _ => markPaidRow_idem oid o)
  · simp only [adminReject, List.map_map, Prod.mk.injEq, AppState.mk.injEq,
      and_true, true_and]
    exact List.map_congr_left (fun o _ => rejectRow_idem oid o)

/-- Witness for C5 on a concrete pending order. -/
def ordC5 : Order :=
  { id := 1, external_id := some "mock_order_10", created_at := "t0",
    customer_name := "Asha", customer_email := "", customer_phone := "99",
    address := "Addr 1", premium := 0, total := 24999, payment_method := "upi",
    payment_status := "pending", status := "created", gateway_payload := none }

/-- Concrete state holding the single pending order ordC5. -/
def stateC5 : AppState :=
  { products := [], orders := [ordC5], order_items := [], nextOrderId := 2,
    cart := [], premium := false }

/-- C5 witness: the idempotence theorem applied to the concrete pending
order ordC5. -/
theorem mark_paid_reject_idempotent_witness :
    adminMarkPaid (adminMarkPaid stateC5 1).1 1 = adminMarkPaid stateC5 1 ∧
    adminReject (adminReject stateC5 1).1 1 = adminReject stateC5 1 ∧
    (adminMarkPaid (adminMarkPaid stateC5 1).1 1).2.category = "success" :=
  mark_paid_reject_idempotent stateC5 1 ⟨ordC5, by simp [stateC5], rfl⟩

/-- Empty-ledger state used to exercise mark_paid / reject on an absent
order id. -/
def stateC4 : AppState :=
  { products := [], orders := [], order_items := [], nextOrderId := 1,
    cart := [], premium := false }

/-- C4 counterexample: with no order in the store, mark_paid 1 does not
fail NotFound; it leaves the store unchanged and still answers with the
ordinary "marked as paid" success flash and dashboard redirect, and
reject 1 likewise answers with its ordinary "rejected" flash. -/
theorem mark_paid_absent_reports_success :
    adminMarkPaid stateC4 1 =
      (stateC4, { text := "Order 1 marked as paid", category := "success" }) ∧
    adminReject stateC4 1 =
      (stateC4, { text := "Order 1 rejected", category := "error" }) := by
  constructor <;> rfl

/-- C4 amended: for every order id not present in the store, mark_paid and
reject are no-ops on the ledger that still return their ordinary flashes
and dashboard redirect; no NotFound failure exists on these handlers. -/
theorem mark_paid_reject_absent_noop (s : AppState) (oid : Nat)
    (h : ∀ o ∈ s.orders, o.id ≠ oid) :
    adminMarkPaid s oid =
      (s, { text := "Order " ++ toString oid ++ " marked as paid", category := "success" }) ∧
    adminReject s oid =
      (s, { text := "Order " ++ toString oid ++ " rejected", category := "error" }) := by
  have hmp : s.orders.map (markPaidRow oid) = s.orders := by
    rw [List.map_congr_left (fun o ho => markPaidRow_of_ne oid o (h o ho))]
    exact List.map_id s.orders
  have hrj : s.orders.map (rejectRow oid) = s.orders := by
    rw [List.map_congr_left (fun o ho => rejectRow_of_ne oid o (h o ho))]
    exact List.map_id s.orders
  constructor
  · simp only [adminMarkPaid, hmp]
  · simp only [adminReject, hrj]

/-- C4 witness: the amended no-op theorem applied to a store holding only
order id 1, asking about the absent id 2. -/
theorem mark_paid_reject_absent_noop_witness :
    adminMarkPaid stateC5 2 =
      (stateC5, { text := "Order 2 marked as paid", category := "success" }) ∧
    adminReject stateC5 2 =
      (stateC5, { text := "Order 2 rejected", category := "error" }) :=
  mark_paid_reject_absent_noop stateC5 2 (by decide)

/-- A concrete order already in the terminal rejected/rejected state. -/
def ordC3 : Order :=
  { id := 1, external_id := some "mock_order_11", created_at := "t0",
    customer_name := "Bina", customer_email := "", customer_phone := "88",
    address := "Addr 2", premium := 0, total := 19999, payment_method := "card",
    payment_status := "rejected", status := "rejected", gateway_payload := none }

/-- Concrete state holding only the rejected order ordC3. -/
def stateC3 : AppState :=
  { products := [], orders := [ordC3], order_items := [], nextOrderId := 2,
    cart := [], premium := false }

/-- C3 failing run: on an order whose payment_status and status are both
"rejected" (a terminal state), admin mark_paid unconditionally moves it to
paid/confirmed and reports success — the terminal state is reverted, with
neither a no-op nor a conflict. -/
theorem mark_paid_reverts_rejected_order :
    stateC3.orders.map (fun o => (o.payment_status, o.status)) =
      [("rejected", "rejected")] ∧
    (adminMarkPaid stateC3 1).1.orders.map (fun o => (o.payment_status, o.status)) =
      [("paid", "confirmed")] ∧
    (adminMarkPaid stateC3 1).2.category = "success" := by
  refine ⟨rfl, rfl, rfl⟩

/-- A concrete catalog product with stock 1 used by the cart_add claim. -/
def prodC10 : Product :=
  { id := 1, sku := "NEEV-R01", name := "Round Brilliant 1.0 ct",
    category := "Rings", description := "E/VS1 IGI Certified", price := 24999,
    stock := 1, image := "" }

/-- Concrete state whose cart already holds 1 unit of the stock-1 product
prodC10. -/
def stateC10 : AppState :=
  { products := [prodC10], orders := [], order_items := [], nextOrderId := 1,
    cart := [(1, 1)], premium := false }

/-- C10: a cart add of quantity q (at least 1) for an existing product
succeeds whenever q alone does not exceed the product's current stock —
the check never looks at the quantity already in the cart — and the stored
cart quantity becomes the previous quantity plus q. -/
theorem cart_add_accumulates (s : AppState) (pid : Nat) (q : Int) (p : Product)
    (hp : lookupProduct s.products pid = some p) (h1 : 1 ≤ q)
    (hstock : q ≤ p.stock) :
    (cartAdd s pid q).2 = CartAddResult.added ∧
    cartGet (cartAdd s pid q).1.cart pid = cartGet s.cart pid + q.toNat := by
  have hq : ¬ q < 1 := by omega
  have hs : ¬ q > p.stock := by omega
  unfold cartAdd
  rw [hp]
  simp only [if_neg hq, if_neg hs]
  exact ⟨trivial, cartGet_cartSet s.cart pid (cartGet s.cart pid + q.toNat)⟩

/-- C10 witness: adding quantity 1 of the stock-1 product to a cart that
already holds 1 unit succeeds (the check compares only the new quantity 1
against stock 1) and accumulates to 2 — exceeding the product's stock. -/
theorem cart_add_accumulates_witness :
    ((cartAdd stateC10 1 1).2 = CartAddResult.added ∧
      cartGet (cartAdd stateC10 1 1).1.cart 1 =
        cartGet stateC10.cart 1 + (1 : Int).toNat) ∧
    (∀ p ∈ stateC10.products, (cartGet (cartAdd stateC10 1 1).1.cart 1 : Int) > p.stock) :=
  ⟨cart_add_accumulates stateC10 1 1 prodC10 rfl (by decide) (by decide),
   by decide⟩

/-- A stock-1 catalog product whose availability is exceeded by the C1
cart. -/
def prodC1 : Product :=
  { id := 1, sku := "NEEV-O03", name := "Oval 1.5 ct", category := "Rings",
    description := "D/VS2 IGI Certified", price := 44999, stock := 1, image := "" }

/-- Concrete state whose cart requests 2 units of the stock-1 product
prodC1. -/
def stateC1 : AppState :=
  { products := [prodC1], orders := [], order_items := [], nextOrderId := 1,
    cart := [(1, 2)], premium := false }

/-- The checkout run on stateC1 with valid customer fields, no gateway
keys, UPI payment. -/
def runC1 : AppState × CheckoutResult :=
  checkout stateC1 false "t0" "mock_order_1" "raw1" "Asha" "" "99" "Addr 1" "upi"

/-- C1 failing run: a checkout whose single cart line requests quantity 2
against current stock 1 does not fail with any InsufficientStock error —
it places the order, commits the order row and its item row, and drives
the product's stock to -1. -/
theorem checkout_commits_despite_insufficient_stock :
    (∀ pq ∈ stateC1.cart, ∀ p ∈ stateC1.products,
      pq.1 = p.id → (pq.2 : Int) > p.stock) ∧
    runC1.2 = CheckoutResult.placed 1 ∧
    runC1.1.orders.length = 1 ∧
    runC1.1.order_items.length = 1 ∧
    runC1.1.products.map (fun p => p.stock) = [(-1 : Int)] := by
  refine ⟨by decide, rfl, rfl, rfl, rfl⟩

/-- A stock-1 catalog product for the stock-invariant claim. -/
def prodC2 : Product :=
  { id := 1, sku := "NEEV-P02", name := "Princess Cut 0.75 ct",
    category := "Pendants", description := "F/VVS2 IGI Certified", price := 19999,
    stock := 1, image := "" }

/-- Concrete initial state with an empty cart and the stock-1 product
prodC2. -/
def stateC2 : AppState :=
  { products := [prodC2], orders := [], order_items := [], nextOrderId := 1,
    cart := [], premium := false }

/-- stateC2 after a first successful cart add of 1 unit. -/
def stateC2a : AppState := (cartAdd stateC2 1 1).1

/-- stateC2a after a second successful cart add of 1 unit (each add checks
only its own quantity against stock, so the cart accumulates 2 > stock). -/
def stateC2b : AppState := (cartAdd stateC2a 1 1).1

/-- The checkout run on the accumulated cart. -/
def runC2 : AppState × CheckoutResult :=
  checkout stateC2b false "t1" "mock_order_2" "raw2" "Bina" "" "88" "Addr 2" "upi"

/-- C2 failing run: the stock-never-negative invariant is violated by a
reachable sequence of operations — two cart adds of 1 unit each pass the
per-request stock check against stock 1, and the subsequent checkout
decrements stock by the accumulated quantity 2, committing stock -1. -/
theorem stock_driven_negative :
    (cartAdd stateC2 1 1).2 = CartAddResult.added ∧
    (cartAdd stateC2a 1 1).2 = CartAddResult.added ∧
    runC2.2 = CheckoutResult.placed 1 ∧
    runC2.1.products.map (fun p => p.stock) = [(-1 : Int)] := by
  refine ⟨rfl, rfl, rfl, rfl⟩

/-- C8: after any successful checkout, an admin product edit — in
particular any later change of a product's price — leaves every stored
order row (hence its total) and every stored order_items row (hence the
captured name and price snapshots) exactly as they were. -/
theorem order_snapshot_immune_to_price_edit
    (s : AppState) (keys : Bool) (now gwId gwPayload nm em ph ad pm : String)
    (s1 : AppState) (oid : Nat)
    (hrun : checkout s keys now gwId gwPayload nm em ph ad pm =
      (s1, CheckoutResult.placed oid))
    (pid : Nat) (pname : String) (pprice : Rat) (pstock : Int)
    (pdesc pcat pimg : String) :
    (adminProductEdit s1 pid pname pprice pstock pdesc pcat pimg).1.orders =
      s1.orders ∧
    (adminProductEdit s1 pid pname pprice pstock pdesc pcat pimg).1.order_items =
      s1.order_items := by
  unfold adminProductEdit
  by_cases hv : pname = "" ∨ pprice ≤ 0 <;> simp [hv]

/-- A stock-5 catalog product for the snapshot witness. -/
def prodC8 : Product :=
  { id := 1, sku := "NEEV-C04", name := "Cushion 1.2 ct", category := "Earrings",
    description := "G/VS1 IGI Certified", price := 28999, stock := 5, image := "" }

/-- Concrete pre-checkout state whose cart requests 1 unit of prodC8. -/
def stateC8 : AppState :=
  { products := [prodC8], orders := [], order_items := [], nextOrderId := 1,
    cart := [(1, 1)], premium := false }

/-- The checkout run on stateC8. -/
def runC8 : AppState × CheckoutResult :=
  checkout stateC8 false "t2" "mock_order_3" "raw3" "Chand" "" "77" "Addr 3" "upi"

/-- C8 witness: the snapshot theorem applied to the concrete checkout
runC8 followed by an admin edit that changes the product's price to 1. -/
theorem order_snapshot_immune_to_price_edit_witness :
    (adminProductEdit runC8.1 1 "Cushion 1.2 ct" 1 5 "" "" "").1.orders =
      runC8.1.orders ∧
    (adminProductEdit runC8.1 1 "Cushion 1.2 ct" 1 5 "" "" "").1.order_items =
      runC8.1.order_items :=
  order_snapshot_immune_to_price_edit stateC8 false "t2" "mock_order_3" "raw3"
    "Chand" "" "77" "Addr 3" "upi" runC8.1 1 (Prod.ext rfl (by decide))
    1 "Cushion 1.2 ct" 1 5 "" "" ""

/-- A pending order whose gateway id is mock_order_123, awaiting webhook
confirmation. -/
def ordC6 : Order :=
  { id := 1, external_id := some "mock_order_123", created_at := "t0",
    customer_name := "Dev", customer_email := "", customer_phone := "66",
    address := "Addr 4", premium := 0, total := 24999, payment_method := "upi",
    payment_status := "pending", status := "created", gateway_payload := none }

/-- Concrete state holding only the pending order ordC6. -/
def stateC6 : AppState :=
  { products := [], orders := [ordC6], order_items := [], nextOrderId := 2,
    cart := [], premium := false }

/-- A signature-verified, well-formed payment.captured event whose payment
entity carries gateway order id zzz, matching no stored order. -/
def evC6 : WebhookEvent :=
  { event := some "payment.captured", type := none,
    entity := some { order_id := some "zzz", id := none, raw := "entity6" },
    raw := "event6" }

/-- C6 counterexample: a verified captured-payment event matching no
stored external id is acknowledged with success, but the resulting state
is exactly the previous state — the event is NOT persisted as a
standalone audit record (no row of any kind is added). -/
theorem webhook_unmatched_captured_not_persisted :
    eventKind evC6 = "payment.captured" ∧
    gatewayOrderId evC6 = some "zzz" ∧
    (∀ o ∈ stateC6.orders, o.external_id ≠ some "zzz") ∧
    webhookHandle stateC6 "t3" evC6 = (stateC6, true) := by
  refine ⟨rfl, rfl, by decide, by decide⟩

/-- C6 amended: every signature-verified event that decodes to the
envelope shape is acknowledged with success and never causes an error
response; an event of unrecognized kind is persisted as a standalone
audit row appended to the ledger, all previously stored rows and tables
kept intact; but a captured-payment event that matches no stored order
external id (or carries no truthy id at all) leaves the state entirely
unchanged — it is acknowledged WITHOUT being persisted as an audit
record. -/
theorem webhook_parsed_events_tolerated (s : AppState) (now : String)
    (e : WebhookEvent) :
    (webhookHandle s now e).2 = true ∧
    (¬ (eventKind e = "payment.captured" ∨ eventKind e = "payment.captured.v1") →
      (webhookHandle s now e).1.orders =
        s.orders ++ [auditOrder now s.nextOrderId e.raw] ∧
      (webhookHandle s now e).1.order_items = s.order_items ∧
      (webhookHandle s now e).1.products = s.products) ∧
    ((eventKind e = "payment.captured" ∨ eventKind e = "payment.captured.v1") →
      (∀ gid, gatewayOrderId e = some gid → ∀ o ∈ s.orders, o.external_id ≠ some gid) →
      (webhookHandle s now e).1 = s) := by
  by_cases hev : eventKind e = "payment.captured" ∨ eventKind e = "payment.captured.v1"
  · rcases hgid : gatewayOrderId e with _ | gid
    · refine ⟨?_, fun hne => absurd hev hne, fun _ _ => ?_⟩ <;>
        simp [webhookHandle, hev, hgid]
    · refine ⟨?_, fun hne => absurd hev hne, fun _ hmatch => ?_⟩
      · simp [webhookHandle, hev, hgid]
      · have hmap : s.orders.map
            (capturedRow gid ((e.entity.map (fun ent => ent.raw)).getD "")) = s.orders := by
          rw [List.map_congr_left
            (fun o ho => capturedRow_of_ne gid _ o (hmatch gid rfl o ho))]
          exact List.map_id s.orders
        simp [webhookHandle, hev, hgid, hmap]
  · refine ⟨?_, fun _ => ⟨?_, ?_, ?_⟩, fun habs _ => absurd habs hev⟩ <;>
      simp [webhookHandle, hev]

/-- An unrecognized-kind event for the C6 witness. -/
def evC6b : WebhookEvent :=
  { event := some "order.paid", type := none, entity := none, raw := "event6b" }

/-- C6 witness: the tolerance theorem applied to the concrete state
stateC5 for an unrecognized event kind (audit row appended, acknowledged)
and to the concrete unmatched captured event evC6 (state unchanged,
acknowledged). -/
theorem webhook_parsed_events_tolerated_witness :
    ((webhookHandle stateC5 "t4" evC6b).1.orders =
        stateC5.orders ++ [auditOrder "t4" stateC5.nextOrderId "event6b"] ∧
      (webhookHandle stateC5 "t4" evC6b).1.order_items = stateC5.order_items ∧
      (webhookHandle stateC5 "t4" evC6b).1.products = stateC5.products) ∧
    (webhookHandle stateC5 "t4" evC6b).2 = true ∧
    (webhookHandle stateC6 "t5" evC6).1 = stateC6 :=
  ⟨(webhook_parsed_events_tolerated stateC5 "t4" evC6b).2.1 (by decide),
   (webhook_parsed_events_tolerated stateC5 "t4" evC6b).1,
   (webhook_parsed_events_tolerated stateC6 "t5" evC6).2.2 (by decide) (by decide)⟩

end Neev
